import Mathlib

/-!
Verification development for the MindMirror frontend core: the streaming
chat pipeline (`src/frontend/lib/api.ts`, `src/frontend/stores/chatStore.ts`)
and the upload batch pipeline (`src/frontend/components/files/FileUpload.tsx`,
third revision of the file — the one defining `attemptUpload` and the
counting `handleFiles`).

External effects (the network transport, the Supabase session provider,
`JSON.parse`, and the per-attempt outcome of `uploadFile`) are passed in as
explicit oracle arguments, so every definition is an executable function of
its inputs.  JavaScript strings are modelled as Lean `String`; the JS
string operations used by the code (`split('\n')`, `startsWith`, `slice`,
`includes`, truthiness of `''`/`undefined`) are reimplemented below by
structural recursion on the character list so that the kernel can evaluate
them.
-/

namespace MindMirror

/-! ### Data model, from `src/frontend/types` (unnamed part_015) -/

/-- Structure `SearchResult` from `types/index.ts`.  The pipelines under verification
never read any field of a source entry — sources are attached to messages
wholesale — so the floating-point `score` is carried as a `Nat` placeholder;
no modelled code path inspects it. -/
structure SearchResult where
  id : String
  score : Nat
  content : String
  title : String
  matched_keywords : List String := []
  deriving Repr, DecidableEq

/-- The `role` union type of `Message`. -/
inductive Role where
  | user
  | assistant
  deriving Repr, DecidableEq

/-- Structure `Message` from `types/index.ts`: `sources` is an optional field. -/
structure Message where
  role : Role
  content : String
  timestamp : String
  sources : Option (List SearchResult) := none
  deriving Repr, DecidableEq

/-- Structure `ChatResponse`, the decoded shape of one stream frame.  At runtime a
frame may omit any of its fields, so each is optional here; JS truthiness
of an absent or empty field is modelled explicitly where the store tests
it. -/
structure ChatResponse where
  content : Option String := none
  sources : Option (List SearchResult) := none
  thread_id : Option String := none
  done : Option Bool := none
  deriving Repr, DecidableEq

/-- Structure `ChatThread` from `types/index.ts`. -/
structure ChatThread where
  id : String
  title : String
  messages : List Message
  created : String
  last_updated : String
  user_id : String
  deriving Repr, DecidableEq

/-! ### JS string primitives, by structural recursion on `List Char` -/

/-- Splits a character list at every occurrence of `sep`, JS
`String.prototype.split` with a single-character separator: always returns
at least one (possibly empty) piece. -/
def splitOnChar (sep : Char) : List Char → List (List Char)
  | [] => [[]]
  | c :: rest =>
    let r := splitOnChar sep rest
    if c = sep then [] :: r
    else
      match r with
      | [] => [[c]]
      | h :: t => (c :: h) :: t

/-- JS `buffer.split('\n')` on a Lean `String`. -/
def jsSplitNewline (s : String) : List String :=
  (splitOnChar '\n' s.data).map fun cs => ⟨cs⟩

/-- Is the first list a prefix of the second?  JS `startsWith` on the
underlying character lists. -/
def charsPrefix : List Char → List Char → Bool
  | [], _ => true
  | _ :: _, [] => false
  | p :: ps, c :: cs => p = c && charsPrefix ps cs

/-- JS `line.startsWith(p)`. -/
def jsStartsWith (s p : String) : Bool :=
  charsPrefix p.data s.data

/-- JS `line.slice(n)` (for the ASCII prefixes used here, code-unit and
character indexing agree). -/
def jsDrop (s : String) (n : Nat) : String :=
  ⟨s.data.drop n⟩

/-- Substring containment on character lists. -/
def charsContains : List Char → List Char → Bool
  | [], sub => charsPrefix sub []
  | c :: rest, sub => charsPrefix sub (c :: rest) || charsContains rest sub

/-- JS `s.includes(sub)`. -/
def jsIncludes (s sub : String) : Bool :=
  charsContains s.data sub.data

/-- JS `a || b` for an optional string `a` against a fallback `b`: an
absent or empty string is falsy. -/
def jsStringOr (a : Option String) (b : String) : String :=
  match a with
  | some s => if s = "" then b else s
  | none => b

/-- JS truthiness of an optional string field (`if (chunk.content)`):
false when the field is absent or the empty string. -/
def strTruthy : Option String → Bool
  | some s => !(s = "")
  | none => false

/-! ### Stream decoding, `ApiClient.streamMessage` (`api.ts` lines 192-218) -/

/-- The buffering read loop of `streamMessage`: each chunk is appended to
the carried buffer, the buffer is split on newlines, every complete line is
emitted, and the final (possibly incomplete) piece becomes the next
buffer.  The buffer left over when the reader reports `done` is discarded,
exactly as in the source. -/
def sseLines (buffer : String) : List String → List String
  | [] => []
  | chunk :: rest =>
    let lines := jsSplitNewline (buffer ++ chunk)
    lines.dropLast ++ sseLines (lines.getLastD "") rest

/-- The per-line loop of `streamMessage` (lines 206-216): a line must start
with `"data: "`; the payload after that prefix is compared against the
literal `[DONE]` before any parsing, terminating the generator; otherwise
the payload goes through `JSON.parse`, modelled by the oracle `parse`
(`none` meaning the parse threw), and a parse failure is logged and
skipped without ending the stream. -/
def processLines (parse : String → Option ChatResponse) : List String → List ChatResponse
  | [] => []
  | line :: rest =>
    if jsStartsWith line "data: " then
      let data := jsDrop line 6
      if data = "[DONE]" then []
      else
        match parse data with
        | some frame => frame :: processLines parse rest
        | none => processLines parse rest
    else processLines parse rest

/-- The full decoder: frames yielded by `streamMessage` for a given
sequence of transport chunks. -/
def streamFrames (parse : String → Option ChatResponse) (chunks : List String) :
    List ChatResponse :=
  processLines parse (sseLines "" chunks)

/-! ### Applying frames to the thread, `sendMessage` (`chatStore.ts` lines 182-214) -/

/-- One iteration of the `for await` body in `sendMessage`: the whole update
is guarded by JS truthiness of `chunk.content`; when it fires, the fragment
is appended to the last message provided that message exists and has the
assistant role, and `chunk.sources`, when present (JS arrays are truthy
even when empty), replaces the message sources wholesale. -/
def applyChunk (messages : List Message) (chunk : ChatResponse) : List Message :=
  match chunk.content with
  | none => messages
  | some c =>
    if c = "" then messages
    else
      match messages.getLast? with
      | none => messages
      | some lastMessage =>
        if lastMessage.role = Role.assistant then
          messages.dropLast ++ [{ lastMessage with
            content := lastMessage.content ++ c,
            sources := match chunk.sources with
              | some s => some s
              | none => lastMessage.sources }]
        else messages

/-- The stream-consumption loop: frames are applied in arrival order. -/
def applyChunks (messages : List Message) (chunks : List ChatResponse) : List Message :=
  chunks.foldl applyChunk messages

/-- Effect of one frame on the trailing assistant message (helper used to
describe `applyChunk` on a list whose last element is an assistant
message). -/
def applyFrame (a : Message) (chunk : ChatResponse) : Message :=
  match chunk.content with
  | none => a
  | some c =>
    if c = "" then a
    else
      { a with
        content := a.content ++ c,
        sources := match chunk.sources with
          | some s => some s
          | none => a.sources }

/-- Folded form of `applyFrame` over a frame list. -/
def applyFrames (a : Message) (chunks : List ChatResponse) : Message :=
  chunks.foldl applyFrame a

/-- Concatenation, in arrival order, of the content fragments carried by a
frame list (an absent `content` field contributes nothing). -/
def concatContents : List ChatResponse → String
  | [] => ""
  | c :: rest => c.content.getD "" ++ concatContents rest

/-- The user message appended optimistically at the start of `sendMessage`. -/
def userMessage (content ts : String) : Message :=
  ⟨Role.user, content, ts, none⟩

/-- The empty assistant placeholder appended right after the user message. -/
def assistantPlaceholder (ts : String) : Message :=
  ⟨Role.assistant, "", ts, none⟩

/-! ### HTTP gateway client, `ApiClient.fetch` (`api.ts` lines 7-124) -/

/-- Result of `response.json()` on a non-2xx body: the `detail` and
`message` fields when the body parsed, `none` when parsing threw. -/
structure ErrorBody where
  detail : Option String := none
  message : Option String := none
  deriving Repr, DecidableEq

/-- The observable part of a `fetch` `Response` used by the client. -/
structure HttpResponse where
  ok : Bool
  status : Nat
  statusText : String := ""
  body : Option ErrorBody := none
  deriving Repr, DecidableEq

/-- Outcome of one transport-level `fetch` call: either a response object
or a thrown network error. -/
inductive TransportResult where
  | resp (r : HttpResponse)
  | netErr (msg : String)
  deriving Repr, DecidableEq

/-- Outcome of `supabase.auth.refreshSession()`: a refresh error, or
success carrying the (possibly null) new session token. -/
inductive RefreshResult where
  | failed
  | ok (newSession : Option String)
  deriving Repr, DecidableEq

/-- What `ApiClient.fetch` delivers to its caller: the returned response,
or the thrown error message. -/
inductive FetchOutcome where
  | success (r : HttpResponse)
  | failure (msg : String)
  deriving Repr, DecidableEq

/-- Outcome of `ApiClient.fetch` together with how many transport requests
and how many session-refresh calls were made. -/
structure FetchTrace where
  outcome : FetchOutcome
  requestCount : Nat
  refreshCount : Nat
  deriving Repr, DecidableEq

/-- The error message computed at `api.ts` lines 47-66: the parsed body's
`detail || message || "HTTP error! status: <s>"` with the file-upload
prefix for that endpoint, or the fallback when the body was not JSON. -/
def errorMessageOf (endpoint : String) (r : HttpResponse) : String :=
  match r.body with
  | some b =>
    let m := jsStringOr b.detail
      (jsStringOr b.message ("HTTP error! status: " ++ toString r.status))
    if endpoint = "/files/upload" then "File upload failed: " ++ m else m
  | none => "Request failed with status: " ++ toString r.status ++ " " ++ r.statusText

/-- Model of `ApiClient.fetch`: fails fast when no session token is available
(absent or empty access token is falsy); a thrown transport error
propagates; on a non-ok response with status 401 it refreshes the session
exactly once — a refresh error surfaces the session-expired message, a
refresh that yields a new session retries the original request once and
returns the retried response on success or throws the original error
message on failure; any other non-ok response throws its error message. -/
def apiFetch (endpoint : String) (session : Option String)
    (first : TransportResult) (refresh : RefreshResult)
    (retryResult : TransportResult) : FetchTrace :=
  match session with
  | none => ⟨.failure "No active session", 0, 0⟩
  | some tok =>
    if tok = "" then ⟨.failure "No active session", 0, 0⟩
    else
      match first with
      | .netErr m => ⟨.failure m, 1, 0⟩
      | .resp r =>
        if r.ok then ⟨.success r, 1, 0⟩
        else
          let errorMessage := errorMessageOf endpoint r
          if r.status = 401 then
            match refresh with
            | .failed => ⟨.failure "Session expired. Please log in again.", 1, 1⟩
            | .ok none => ⟨.failure errorMessage, 1, 1⟩
            | .ok (some _) =>
              match retryResult with
              | .netErr m => ⟨.failure m, 2, 1⟩
              | .resp r2 =>
                if r2.ok then ⟨.success r2, 2, 1⟩
                else ⟨.failure errorMessage, 2, 1⟩
          else ⟨.failure errorMessage, 1, 0⟩

/-- Model of `ApiClient.getThreads` (`api.ts` lines 138-163): returns `[]` when the
session lookup yields no session, and catches any error thrown by the
gateway call or by `response.json()` (modelled by `parsedBody`), returning
`[]` in every such case instead of propagating. -/
def getThreads (sessionOuter sessionInner : Option String)
    (first : TransportResult) (refresh : RefreshResult)
    (retryResult : TransportResult)
    (parsedBody : Except String (List ChatThread)) : List ChatThread :=
  match sessionOuter with
  | none => []
  | some _ =>
    match (apiFetch "/chat/threads" sessionInner first refresh retryResult).outcome with
    | .failure _ => []
    | .success _ =>
      match parsedBody with
      | .error _ => []
      | .ok ts => ts

/-! ### `sendMessage` error path (`chatStore.ts` lines 219-246) -/

/-- The store fields written by the `sendMessage` catch handler. -/
structure ChatErrorState where
  messages : List Message
  errorMsg : Option String
  deriving Repr, DecidableEq

/-- Model of `sendMessage` when the stream terminates with an error after
`appliedChunks` frames were applied (possibly none): the user message and
the assistant placeholder were appended synchronously at entry, the
arrived frames were applied, and the catch handler drops the last message
(`messages.slice(0, -1)`) and records
`error.detail || error.message || 'Failed to send message'`.  The model
presumes a current thread, as the claim does; with no current thread the
store ignores both the appends and the error write. -/
def sendMessageOnError (initialMessages : List Message) (content ts1 ts2 : String)
    (appliedChunks : List ChatResponse) (errDetail errMessage : Option String) :
    ChatErrorState :=
  let ms := initialMessages ++ [userMessage content ts1]
  let ms := ms ++ [assistantPlaceholder ts2]
  let ms := applyChunks ms appliedChunks
  { messages := ms.dropLast,
    errorMsg := some (jsStringOr errDetail (jsStringOr errMessage "Failed to send message")) }

/-! ### Progress simulator, `simulateSearchProgress` (`chatStore.ts` lines 149-180)

The simulator is three cascaded `while` loops over a single increasing
`progress` variable; each iteration awaits a timer, then increments and
reports.  Because `progress` only grows and the guards are the nested
ranges `< 30`, `< 50`, unconditional, the cascade is one step function on
the current value.  The cancellation flag `isSearching` is read at each
loop guard and can only be flipped while the simulator is suspended in a
timer await (single-threaded event loop), so a flip during await number
`c` lets iterations `0..c` finish their bodies — the guard of iteration
`c + 1` is the first to observe the flag. -/

/-- One simulator tick from value `p`: `+5` below 30, `+3` below 50, and
otherwise `min 90 (p + max 1 (floor (10 / (p / 10))))` — the JS float
expression `Math.floor(10 / (progress / 10))` equals `100 / p` in natural
division for every value this trajectory reaches (all lie in `[51, 90]`). -/
def simStep (p : Nat) : Nat :=
  if p < 30 then p + 5
  else if p < 50 then p + 3
  else min 90 (p + max 1 (100 / p))

/-- Progress value after `n` completed simulator iterations; iteration
`i` reports `simProgress (i + 1)`. -/
def simProgress : Nat → Nat
  | 0 => 0
  | n + 1 => simStep (simProgress n)

/-- All values passed to `setSearchProgress` by a run whose cancellation
flag flips during timer await number `cancelTick`: iterations
`0..cancelTick` each report once, then the loop guard observes the flag
and the run ends. -/
def simReports (cancelTick : Nat) : List Nat :=
  (List.range (cancelTick + 1)).map fun i => simProgress (i + 1)

/-- The reports made strictly before the cancellation flag flips. -/
def simReportsBefore (cancelTick : Nat) : List Nat :=
  (simReports cancelTick).take cancelTick

/-- The reports made after the cancellation flag flips (the body of the
iteration whose await the flip interrupted). -/
def simReportsAfter (cancelTick : Nat) : List Nat :=
  (simReports cancelTick).drop cancelTick

/-! ### Upload pipeline (`FileUpload.tsx`, third revision, lines 354-549) -/

/-- The response body of a successful `uploadFile` call, the two fields
`handleFiles` reads. -/
structure UploadResp where
  status : String
  embedding_status : String
  deriving Repr, DecidableEq

/-- Outcome of one `uploadFile` attempt: a response, or a thrown error. -/
inductive AttemptResult where
  | ok (r : UploadResp)
  | err (msg : String)
  deriving Repr, DecidableEq

/-- A file in a batch together with the oracle giving the outcome of its
`k`-th upload attempt. -/
structure FileSpec where
  name : String
  size : Nat
  outcomes : Nat → AttemptResult

/-- The transient-failure predicate of `attemptUpload` (line 420):
the error message contains `timeout` or `Failed to upload`. -/
def isTransient (msg : String) : Bool :=
  jsIncludes msg "timeout" || jsIncludes msg "Failed to upload"

/-- Model of `attemptUpload` (`FileUpload.tsx` lines 415-430): tries the upload; on
a transient error with fewer than `MAX_RETRIES = 3` retries so far, sleeps
`(retryCount + 1) * 1000` ms and recurses with `retryCount + 1`; otherwise
rethrows.  (This helper is defined by the component but `handleFiles`
never calls it — see the C3 theorem.) -/
def attemptUpload (outcomes : Nat → AttemptResult) (retryCount : Nat) :
    Except String UploadResp :=
  match outcomes retryCount with
  | .ok r => .ok r
  | .err msg =>
    if h : retryCount < 3 ∧ isTransient msg = true then
      attemptUpload outcomes (retryCount + 1)
    else
      .error msg
termination_by 4 - retryCount
decreasing_by omega

/-- Outcome buckets of the classification chain in `handleFiles`
(lines 457-496): counted as skipped, as a success, or as a failure. -/
inductive Bucket where
  | success
  | skipped
  | failed
  deriving Repr, DecidableEq

/-- The classification chain of `handleFiles` applied to a response:
duplicate-skip, zero-size save, the `success` statuses (degraded indexing
variants, `skipped_empty`, `completed`), and everything else a failure. -/
def classifyResponse (f : FileSpec) (r : UploadResp) : Bucket :=
  if r.status = "skipped" ∧ r.embedding_status = "skipped_duplicate" then .skipped
  else if f.size = 0 then .success
  else if r.status = "success" then
    if r.embedding_status = "error" ∨ r.embedding_status = "error_date_format"
        ∨ r.embedding_status = "error_decode" then .success
    else if r.embedding_status = "skipped_empty" then .success
    else if r.embedding_status = "completed" then .success
    else .failed
  else .failed

/-- The bucket a file lands in when processed by the `handleFiles` loop:
one direct `uploadFile` call (outcome index 0); a thrown error is caught
and counted as a failure. -/
def fileBucket (f : FileSpec) : Bucket :=
  match f.outcomes 0 with
  | .err _ => .failed
  | .ok r => classifyResponse f r

/-- The `status` union of the `UploadProgress` store slot. -/
inductive UStatus where
  | idle
  | uploading
  | complete
  | error
  deriving Repr, DecidableEq

/-- One `setUploadProgress` payload. -/
structure UploadProgress where
  currentFileIndex : Nat
  currentFile : String
  totalFiles : Nat
  status : UStatus
  deriving Repr, DecidableEq

/-- Per-file work of the `handleFiles` loop body at index `i` of a batch of
`n`: the `uploading` progress write, one `uploadFile` call, classification,
then the `complete` write (the classification chain runs inside the `try`,
so even a response counted as failed reaches the `complete` write), or on
a thrown error the catch writes the `error` state. -/
def processFile (n i : Nat) (f : FileSpec) : Bucket × List UploadProgress :=
  match f.outcomes 0 with
  | .err _ => (.failed, [⟨i, f.name, n, .uploading⟩, ⟨i, f.name, n, .error⟩])
  | .ok r => (classifyResponse f r, [⟨i, f.name, n, .uploading⟩, ⟨i, f.name, n, .complete⟩])

/-- Adds one outcome to the `(successCount, skipCount, errorCount)`
accumulator. -/
def bucketAdd (b : Bucket) : Nat × Nat × Nat → Nat × Nat × Nat
  | (s, k, e) =>
    match b with
    | .success => (s + 1, k, e)
    | .skipped => (s, k + 1, e)
    | .failed => (s, k, e + 1)

/-- The `for` loop of `handleFiles`: every file is processed in input
order — a caught per-file error does not break the loop — accumulating the
three counters, the ordered list of attempted file names, and the progress
writes. -/
def handleFilesLoop (n : Nat) : Nat → List FileSpec →
    (Nat × Nat × Nat) × List String × List UploadProgress
  | _, [] => ((0, 0, 0), [], [])
  | i, f :: rest =>
    let (b, tr) := processFile n i f
    let (counts, names, trs) := handleFilesLoop n (i + 1) rest
    (bucketAdd b counts, f.name :: names, tr ++ trs)

/-- Result of one `handleFiles` batch: the counters, the attempted files in
order, the batch summary (emitted exactly when the batch has more than one
file), and the full ordered trace of `setUploadProgress` writes. -/
structure BatchResult where
  successCount : Nat
  skipCount : Nat
  errorCount : Nat
  attempted : List String
  summary : Option (Nat × Nat × Nat)
  progressTrace : List UploadProgress

/-- Model of `handleFiles` (lines 432-549): the initial `uploading` write, the
per-file loop, the conditional batch summary, and the final unconditional
reset write `{currentFileIndex: 0, totalFiles: 0, currentFile: '', status: 'idle'}`. -/
def handleFiles (files : List FileSpec) : BatchResult :=
  let n := files.length
  let (counts, names, trs) := handleFilesLoop n 0 files
  { successCount := counts.1
    skipCount := counts.2.1
    errorCount := counts.2.2
    attempted := names
    summary := if 1 < files.length then some counts else none
    progressTrace := ⟨0, "", n, .uploading⟩ :: trs ++ [⟨0, "", 0, .idle⟩] }

/-! ### Concrete inputs used by the witness theorems -/

/-- Parse oracle for the witnesses: two well-formed payloads carrying the
fragments `A` and `B`; every other payload fails to parse. -/
def demoParse : String → Option ChatResponse := fun s =>
  if s = "AJ" then some { content := some "A" }
  else if s = "BJ" then some { content := some "B" }
  else none

/-- A chunked transport stream whose frame boundary falls inside a chunk:
frames `A`, `B`, the `[DONE]` sentinel, then one more frame that must never
be applied. -/
def demoChunks : List String :=
  ["data: AJ\nda", "ta: BJ\ndata: [DONE]\ndata: AJ\n"]

/-- A source entry already attached to a message. -/
def demoOldSource : SearchResult := ⟨"old", 1, "c1", "T1", []⟩

/-- A source entry arriving in a late frame. -/
def demoNewSource : SearchResult := ⟨"new", 2, "c2", "T2", []⟩

/-- An assistant message mid-stream, with partial content and sources. -/
def demoAssistantMsg : Message :=
  ⟨Role.assistant, "partial", "t1", some [demoOldSource]⟩

/-- A frame carrying only a `sources` field and no `content`. -/
def demoSourcesOnlyFrame : ChatResponse := { sources := some [demoNewSource] }

/-- A frame carrying both a non-empty fragment and a `sources` field. -/
def demoContentSourcesFrame : ChatResponse :=
  { content := some "X", sources := some [demoNewSource] }

/-- Attempt oracle whose first upload throws a transient `timeout` error
and whose second attempt succeeds. -/
def transientThenOk : Nat → AttemptResult
  | 0 => .err "timeout"
  | _ => .ok ⟨"success", "completed"⟩

/-- The file driving the C3 failing input. -/
def demoRetryFile : FileSpec := ⟨"notes.pdf", 123, transientThenOk⟩

/-- A three-file batch: file 1 succeeds, file 2 is a duplicate skip,
file 3 succeeds. -/
def demoBatch : List FileSpec :=
  [⟨"a.txt", 5, fun _ => .ok ⟨"success", "completed"⟩⟩,
   ⟨"b.txt", 5, fun _ => .ok ⟨"skipped", "skipped_duplicate"⟩⟩,
   ⟨"c.txt", 5, fun _ => .ok ⟨"success", "completed"⟩⟩]

/-- A non-ok 401 response with a parseable error body. -/
def demo401 : HttpResponse :=
  ⟨false, 401, "Unauthorized", some ⟨some "Signature has expired", none⟩⟩

/-- A successful retried response. -/
def demoRetryOk : HttpResponse := ⟨true, 200, "OK", none⟩

/-- A plain non-2xx response that is not a 401. -/
def demo500 : HttpResponse := ⟨false, 500, "Internal Server Error", none⟩

/-! ### Helper lemmas -/

/-- Appending a frame to a list ending in an assistant message only touches
that last message, via `applyFrame`. -/
theorem applyChunk_concat (xs : List Message) (a : Message) (c : ChatResponse)
    (ha : a.role = Role.assistant) :
    applyChunk (xs ++ [a]) c = xs ++ [applyFrame a c] := by
  unfold applyChunk applyFrame
  cases hc : c.content with
  | none => rfl
  | some s =>
    by_cases hs : s = ""
    · simp [hs]
    · simp [hs, List.getLast?_concat, List.dropLast_concat, ha]

/-- A frame never changes the role of the message it touches. -/
theorem applyFrame_role (a : Message) (c : ChatResponse) :
    (applyFrame a c).role = a.role := by
  unfold applyFrame
  cases hc : c.content with
  | none => rfl
  | some s => by_cases hs : s = "" <;> simp [hs]

/-- A frame appends exactly its content fragment (absent content appends
nothing). -/
theorem applyFrame_content (a : Message) (c : ChatResponse) :
    (applyFrame a c).content = a.content ++ c.content.getD "" := by
  unfold applyFrame
  cases hc : c.content with
  | none => simp [String.append_empty]
  | some s =>
    by_cases hs : s = ""
    · simp [hs, String.append_empty]
    · simp [hs]

/-- Folded form of `applyChunk_concat` over a whole frame list. -/
theorem applyChunks_concat (cs : List ChatResponse) :
    ∀ (xs : List Message) (a : Message), a.role = Role.assistant →
      applyChunks (xs ++ [a]) cs = xs ++ [applyFrames a cs] := by
  induction cs with
  | nil => intro xs a _; rfl
  | cons c rest ih =>
    intro xs a ha
    show applyChunks (applyChunk (xs ++ [a]) c) rest = xs ++ [applyFrames (applyFrame a c) rest]
    rw [applyChunk_concat xs a c ha]
    exact ih xs (applyFrame a c) (by rw [applyFrame_role, ha])

/-- The role survives a whole frame list. -/
theorem applyFrames_role (cs : List ChatResponse) :
    ∀ a : Message, (applyFrames a cs).role = a.role := by
  induction cs with
  | nil => intro a; rfl
  | cons c rest ih =>
    intro a
    show (applyFrames (applyFrame a c) rest).role = a.role
    rw [ih, applyFrame_role]

/-- Applying a frame list appends exactly the concatenation, in order, of
the content fragments it carries. -/
theorem applyFrames_content (cs : List ChatResponse) :
    ∀ a : Message, (applyFrames a cs).content = a.content ++ concatContents cs := by
  induction cs with
  | nil => intro a; simp [applyFrames, concatContents, String.append_empty]
  | cons c rest ih =>
    intro a
    show (applyFrames (applyFrame a c) rest).content = _
    rw [ih, applyFrame_content, concatContents, String.append_assoc]

/-- Lines after the first `data: [DONE]` line never influence the decoded
frame list: the loop returns at the sentinel. -/
theorem processLines_done_suffix (parse : String → Option ChatResponse)
    (before after : List String) :
    processLines parse (before ++ "data: [DONE]" :: after) =
      processLines parse (before ++ ["data: [DONE]"]) := by
  induction before with
  | nil => rfl
  | cons b bs ih =>
    simp only [List.cons_append, processLines]
    by_cases h1 : jsStartsWith b "data: " = true
    · simp only [h1, if_true]
      by_cases h2 : jsDrop b 6 = "[DONE]"
      · simp [h2]
      · simp only [h2, if_false]
        cases parse (jsDrop b 6) <;> simp [ih]
    · simp [h1, ih]

/-- A character list is a prefix of itself extended by anything. -/
theorem charsPrefix_append (p x : List Char) : charsPrefix p (p ++ x) = true := by
  induction p with
  | nil => rfl
  | cons c cs ih => simp [charsPrefix, ih]

/-- JS `startsWith` holds on any string built by prepending the prefix. -/
theorem jsStartsWith_append (p s : String) : jsStartsWith (p ++ s) p = true := by
  unfold jsStartsWith
  rw [String.data_append]
  exact charsPrefix_append _ _

/-- Dropping the six characters of `"data: "` recovers the payload. -/
theorem jsDrop_data_prefix (d : String) : jsDrop ("data: " ++ d) 6 = d := by
  unfold jsDrop
  rw [String.data_append]
  rw [show (6 : Nat) = ("data: " : String).data.length from rfl, List.drop_left]

/-! ### C1 — streamed content concatenation -/

/-- C1: for every successfully streamed response, the final assistant
message content equals the initial content plus the concatenation, in
arrival order, of the content fragments of all frames the decoder yielded
(exactly the frames that parsed as JSON before the sentinel), the message
keeps its assistant role and position, and the decoded frame list — hence
the message — is unaffected by anything after the first `data: [DONE]`
line. -/
theorem c1_stream_concat (parse : String → Option ChatResponse)
    (chunks : List String) (xs : List Message) (a : Message)
    (ha : a.role = Role.assistant) (before after : List String) :
    (applyChunks (xs ++ [a]) (streamFrames parse chunks) =
        xs ++ [applyFrames a (streamFrames parse chunks)] ∧
      (applyFrames a (streamFrames parse chunks)).role = Role.assistant ∧
      (applyFrames a (streamFrames parse chunks)).content =
        a.content ++ concatContents (streamFrames parse chunks)) ∧
    processLines parse (before ++ "data: [DONE]" :: after) =
      processLines parse (before ++ ["data: [DONE]"]) := by
  refine ⟨⟨applyChunks_concat _ xs a ha, ?_, applyFrames_content _ a⟩,
    processLines_done_suffix parse before after⟩
  rw [applyFrames_role, ha]

/-- Witness for C1: the two-frame `[DONE]`-terminated demo stream (with a
frame boundary split across transport chunks and a trailing post-sentinel
frame) drives the placeholder to final content `"AB"`. -/
theorem c1_stream_concat_witness :
    ((applyChunks ([] ++ [assistantPlaceholder "t0"]) (streamFrames demoParse demoChunks) =
        [] ++ [applyFrames (assistantPlaceholder "t0") (streamFrames demoParse demoChunks)] ∧
      (applyFrames (assistantPlaceholder "t0") (streamFrames demoParse demoChunks)).role = Role.assistant ∧
      (applyFrames (assistantPlaceholder "t0") (streamFrames demoParse demoChunks)).content =
        (assistantPlaceholder "t0").content ++ concatContents (streamFrames demoParse demoChunks)) ∧
    processLines demoParse (["data: x"] ++ "data: [DONE]" :: ["data: AJ"]) =
      processLines demoParse (["data: x"] ++ ["data: [DONE]"])) ∧
    applyChunks [assistantPlaceholder "t0"] (streamFrames demoParse demoChunks) =
      [⟨Role.assistant, "AB", "t0", none⟩] :=
  ⟨c1_stream_concat demoParse demoChunks [] (assistantPlaceholder "t0") rfl
      ["data: x"] ["data: AJ"],
    by decide⟩

/-! ### C5 — placeholder removal on error -/

/-- C5: whenever `sendMessage` terminates with an error — before streaming
(no frame applied) or during it (any frame list applied) — the catch
handler leaves the thread with exactly the original messages plus the user
message: the assistant placeholder, half-written or empty, is removed, and
a user-visible error message is recorded. -/
theorem c5_error_removes_placeholder (initialMessages : List Message)
    (content ts1 ts2 : String) (appliedChunks : List ChatResponse)
    (errDetail errMessage : Option String) :
    (sendMessageOnError initialMessages content ts1 ts2 appliedChunks
        errDetail errMessage).messages =
      initialMessages ++ [userMessage content ts1] ∧
    ∃ e, (sendMessageOnError initialMessages content ts1 ts2 appliedChunks
        errDetail errMessage).errorMsg = some e := by
  constructor
  · show (applyChunks ((initialMessages ++ [userMessage content ts1]) ++
        [assistantPlaceholder ts2]) appliedChunks).dropLast = _
    rw [applyChunks_concat appliedChunks _ _ rfl]
    exact List.dropLast_concat
  · exact ⟨_, rfl⟩

/-! ### C6 — per-frame field handling -/

/-- C6 counterexample: a decoded frame that carries a `sources` field but
no `content` field does not replace the assistant message sources — the
whole update is guarded by truthiness of `chunk.content`, so the claim
that sources are replaced regardless of the other fields fails at this
input. -/
theorem c6_sources_only_frame_ignored :
    applyChunk [demoAssistantMsg] demoSourcesOnlyFrame = [demoAssistantMsg] ∧
    demoAssistantMsg.sources ≠ demoSourcesOnlyFrame.sources := by decide

/-- C6 amended: within a frame that carries a non-empty content fragment,
the fragment is appended verbatim and a present `sources` field replaces
the message sources wholesale (absent sources leave them unchanged); a
frame without a truthy content field — even one carrying `sources` — leaves
the message list untouched. -/
theorem c6_content_append_sources_replace (xs : List Message) (a : Message)
    (ha : a.role = Role.assistant) (c : ChatResponse) :
    (∀ s, c.content = some s → s ≠ "" →
      applyChunk (xs ++ [a]) c = xs ++ [{ a with
        content := a.content ++ s,
        sources := match c.sources with
          | some srcs => some srcs
          | none => a.sources }]) ∧
    (strTruthy c.content = false → applyChunk (xs ++ [a]) c = xs ++ [a]) := by
  constructor
  · intro s hs hne
    rw [applyChunk_concat xs a c ha]
    unfold applyFrame
    simp [hs, hne]
  · intro ht
    rw [applyChunk_concat xs a c ha]
    unfold applyFrame
    cases hc : c.content with
    | none => rfl
    | some s =>
      rw [hc] at ht
      unfold strTruthy at ht
      simp at ht
      simp [ht]

/-- Witness for C6: a frame carrying fragment `X` and new sources appends
the fragment and swaps the sources wholesale on the demo message. -/
theorem c6_content_append_sources_replace_witness :
    applyChunk ([] ++ [demoAssistantMsg]) demoContentSourcesFrame =
      [] ++ [{ demoAssistantMsg with
        content := demoAssistantMsg.content ++ "X",
        sources := match demoContentSourcesFrame.sources with
          | some srcs => some srcs
          | none => demoAssistantMsg.sources }] :=
  (c6_content_append_sources_replace [] demoAssistantMsg rfl
    demoContentSourcesFrame).1 "X" rfl (by decide)

/-! ### C7 — sentinel and malformed frames -/

/-- C7: for any parse oracle (in particular whatever `JSON.parse` would do
on the sentinel payload — it is never consulted), a `data: [DONE]` line
terminates the decoded stream immediately, and a data line whose payload
fails to parse is skipped while every frame from the remaining lines is
still yielded. -/
theorem c7_done_terminates_malformed_skipped (parse : String → Option ChatResponse)
    (tail rest : List String) (d : String)
    (hd : parse d = none) (hdone : d ≠ "[DONE]") :
    processLines parse (("data: " ++ "[DONE]") :: tail) = [] ∧
    processLines parse (("data: " ++ d) :: rest) = processLines parse rest := by
  constructor
  · rfl
  · simp only [processLines, jsStartsWith_append, if_true, jsDrop_data_prefix]
    simp [hdone, hd]

/-- Witness for C7: the demo oracle never parses `ZZ`; the sentinel stops
the demo stream and the malformed line is skipped while the following
well-formed line still yields its frame. -/
theorem c7_done_terminates_malformed_skipped_witness :
    (processLines demoParse (("data: " ++ "[DONE]") :: ["data: x"]) = [] ∧
      processLines demoParse (("data: " ++ "ZZ") :: ["data: AJ"]) =
        processLines demoParse ["data: AJ"]) ∧
    processLines demoParse ["data: AJ"] = [{ content := some "A" }] :=
  ⟨c7_done_terminates_malformed_skipped demoParse ["data: x"] ["data: AJ"] "ZZ"
      rfl (by decide),
    by decide⟩

/-! ### C2 — 401 refresh-and-retry boundary -/

/-- C2: a request answered with a non-ok 401 triggers exactly one
session-refresh attempt; a failed refresh surfaces the session-expired
error with the original request never retried (one transport request in
total); a successful refresh retries the original request exactly once
(two transport requests in total, never more) and the retried request's
outcome is what the caller gets — its response on success, a thrown error
on failure. -/
theorem c2_single_refresh_single_retry (endpoint tok : String) (htok : ¬tok = "")
    (r1 : HttpResponse) (hok : r1.ok = false) (h401 : r1.status = 401)
    (refresh : RefreshResult) (retryResult : TransportResult) :
    (apiFetch endpoint (some tok) (.resp r1) refresh retryResult).refreshCount = 1 ∧
    (refresh = .failed →
      apiFetch endpoint (some tok) (.resp r1) refresh retryResult =
        ⟨.failure "Session expired. Please log in again.", 1, 1⟩) ∧
    (∀ tok2, refresh = .ok (some tok2) →
      (apiFetch endpoint (some tok) (.resp r1) refresh retryResult).requestCount = 2 ∧
      (∀ r2, retryResult = .resp r2 →
        (r2.ok = true →
          (apiFetch endpoint (some tok) (.resp r1) refresh retryResult).outcome =
            .success r2) ∧
        (r2.ok = false →
          (apiFetch endpoint (some tok) (.resp r1) refresh retryResult).outcome =
            .failure (errorMessageOf endpoint r1)))) := by
  cases refresh with
  | failed => simp [apiFetch, htok, hok, h401]
  | ok os =>
    cases os with
    | none => simp [apiFetch, htok, hok, h401]
    | some t =>
      cases retryResult with
      | netErr m => simp [apiFetch, htok, hok, h401]
      | resp r2 =>
        by_cases h2 : r2.ok <;> simp [apiFetch, htok, hok, h401, h2]

/-- Witness for C2: the demo 401 followed by a successful refresh and a
successful retried request. -/
theorem c2_single_refresh_single_retry_witness :
    (apiFetch "/chat/message" (some "tok") (.resp demo401) (.ok (some "tok2"))
        (.resp demoRetryOk)).refreshCount = 1 ∧
    ((.ok (some "tok2") : RefreshResult) = .failed →
      apiFetch "/chat/message" (some "tok") (.resp demo401) (.ok (some "tok2"))
          (.resp demoRetryOk) =
        ⟨.failure "Session expired. Please log in again.", 1, 1⟩) ∧
    (∀ tok2, (.ok (some "tok2") : RefreshResult) = .ok (some tok2) →
      (apiFetch "/chat/message" (some "tok") (.resp demo401) (.ok (some "tok2"))
          (.resp demoRetryOk)).requestCount = 2 ∧
      (∀ r2, (.resp demoRetryOk : TransportResult) = .resp r2 →
        (r2.ok = true →
          (apiFetch "/chat/message" (some "tok") (.resp demo401) (.ok (some "tok2"))
              (.resp demoRetryOk)).outcome = .success r2) ∧
        (r2.ok = false →
          (apiFetch "/chat/message" (some "tok") (.resp demo401) (.ok (some "tok2"))
              (.resp demoRetryOk)).outcome =
            .failure (errorMessageOf "/chat/message" demo401)))) :=
  c2_single_refresh_single_retry "/chat/message" "tok" (by decide) demo401 rfl rfl
    (.ok (some "tok2")) (.resp demoRetryOk)

/-! ### C10 — thread listing swallows errors -/

/-- C10: `getThreads` returns the empty list whenever any error occurs —
the session lookup yields no session, the transport throws a network
error, or the gateway rejects a non-2xx response, including every
401-originated error pathway: a 401 whose refresh fails (the thrown
session-expired error is swallowed), a refresh that yields no session, a
retried request that throws a network error, and a retried request that
comes back non-ok.  The only non-2xx first response not listed is a 401
whose refreshed retry succeeds, where no error occurs and the threads are
returned.  In every listed case the error is swallowed, never propagated
to the caller. -/
theorem c10_getThreads_empty_on_error (sessionOuter sessionInner : Option String)
    (first : TransportResult) (refresh : RefreshResult)
    (retryResult : TransportResult) (parsedBody : Except String (List ChatThread))
    (h : sessionOuter = none ∨ (∃ m, first = .netErr m) ∨
      (∃ r, first = .resp r ∧ r.ok = false ∧
        (r.status ≠ 401 ∨ refresh = .failed ∨ refresh = .ok none ∨
          (∃ m, retryResult = .netErr m) ∨
          (∃ r2, retryResult = .resp r2 ∧ r2.ok = false)))) :
    getThreads sessionOuter sessionInner first refresh retryResult parsedBody = [] := by
  rcases h with rfl | ⟨m, rfl⟩ | ⟨r, rfl, hok, hcase⟩
  · rfl
  · cases sessionOuter with
    | none => rfl
    | some s =>
      cases sessionInner with
      | none => rfl
      | some tok => by_cases htok : tok = "" <;> simp [getThreads, apiFetch, htok]
  · cases sessionOuter with
    | none => rfl
    | some s =>
      cases sessionInner with
      | none => rfl
      | some tok =>
        by_cases htok : tok = ""
        · simp [getThreads, apiFetch, htok]
        · rcases hcase with h401 | rfl | rfl | ⟨m2, rfl⟩ | ⟨r2, rfl, hok2⟩
          · simp [getThreads, apiFetch, htok, hok, h401]
          · by_cases hs : r.status = 401 <;>
              simp [getThreads, apiFetch, htok, hok, hs]
          · by_cases hs : r.status = 401 <;>
              simp [getThreads, apiFetch, htok, hok, hs]
          · cases refresh with
            | failed =>
              by_cases hs : r.status = 401 <;>
                simp [getThreads, apiFetch, htok, hok, hs]
            | ok os =>
              cases os with
              | none =>
                by_cases hs : r.status = 401 <;>
                  simp [getThreads, apiFetch, htok, hok, hs]
              | some t =>
                by_cases hs : r.status = 401 <;>
                  simp [getThreads, apiFetch, htok, hok, hs]
          · cases refresh with
            | failed =>
              by_cases hs : r.status = 401 <;>
                simp [getThreads, apiFetch, htok, hok, hs]
            | ok os =>
              cases os with
              | none =>
                by_cases hs : r.status = 401 <;>
                  simp [getThreads, apiFetch, htok, hok, hs]
              | some t =>
                by_cases hs : r.status = 401 <;>
                  simp [getThreads, apiFetch, htok, hok, hs, hok2]

/-- Witness for C10: a concrete 401 whose session refresh fails — the
thrown session-expired error is swallowed and the empty thread list is
returned. -/
theorem c10_getThreads_empty_on_error_witness :
    getThreads (some "s") (some "tok") (.resp demo401) .failed
      (.resp demoRetryOk) (.ok []) = [] :=
  c10_getThreads_empty_on_error (some "s") (some "tok") (.resp demo401) .failed
    (.resp demoRetryOk) (.ok [])
    (.inr (.inr ⟨demo401, rfl, rfl, .inr (.inl rfl)⟩))

/-! ### C4 — progress simulator bound and cancellation -/

/-- C4 counterexample to the claim as stated: with the first content frame
arriving during await number 60, the simulator has already reported the
value 90 (reaching it at report 52) before any content arrived — the cap
is `min 90`, reached inclusively — and with cancellation during the very
first await the in-flight iteration still fires one report after the flag
flips, so the progress value is advanced after cancellation. -/
theorem c4_reports_exactly_90_and_post_cancel_tick :
    (∃ v ∈ simReportsBefore 60, 90 ≤ v) ∧ simReportsAfter 0 ≠ [] := by decide

/-- Dropping a prefix of known length from an append leaves the suffix. -/
theorem drop_append_of_length {α : Type} (l l₂ : List α) (n : Nat)
    (hl : l.length = n) : (l ++ l₂).drop n = l₂ := by
  rw [← hl]
  exact List.drop_left _ _

/-- One simulator step never exceeds 90: the first two tiers top out below
35 and 53, and the last tier is clamped by `min 90`. -/
theorem simStep_le_90 (p : Nat) : simStep p ≤ 90 := by
  unfold simStep
  split
  · omega
  · split
    · omega
    · exact Nat.min_le_left _ _

/-- C4 amended: wherever the cancellation flag flips, every value the
simulator ever reports is at most 90 (it can reach exactly 90, never
more), and after the flip exactly one report fires — the body of the
iteration whose timer await the flip interrupted — after which the loop
guard observes the flag and the simulator stops. -/
theorem c4_progress_capped_one_post_cancel_report (cancelTick : Nat) :
    (∀ v ∈ simReports cancelTick, v ≤ 90) ∧
    simReportsAfter cancelTick = [simProgress (cancelTick + 1)] := by
  constructor
  · intro v hv
    simp only [simReports, List.mem_map, List.mem_range] at hv
    obtain ⟨i, _, rfl⟩ := hv
    exact simStep_le_90 (simProgress i)
  · unfold simReportsAfter simReports
    rw [show cancelTick + 1 = cancelTick.succ from rfl, List.range_succ,
      List.map_append]
    rw [drop_append_of_length _ _ _ (by simp)]
    rfl

/-- Witness for C4 amended: at cancellation during await 5, all six
reports are at most 90 and exactly one report follows the flip. -/
theorem c4_progress_capped_one_post_cancel_report_witness :
    (∀ v ∈ simReports 5, v ≤ 90) ∧ simReportsAfter 5 = [simProgress 6] :=
  c4_progress_capped_one_post_cancel_report 5

/-! ### C8 — progress reset after every batch -/

/-- C8: whatever the batch and however its files fared, the last
`setUploadProgress` write of `handleFiles` is the unconditional reset:
status `idle` and `currentFileIndex` 0 (with `totalFiles` 0 and an empty
`currentFile`). -/
theorem c8_final_progress_idle (files : List FileSpec) :
    (handleFiles files).progressTrace.getLast? =
      some ⟨0, "", 0, UStatus.idle⟩ := by
  unfold handleFiles
  rcases hl : handleFilesLoop files.length 0 files with ⟨counts, names, trs⟩
  simp only [hl]
  show ((⟨0, "", files.length, .uploading⟩ :: trs) ++
    [⟨0, "", 0, .idle⟩] : List UploadProgress).getLast? = _
  exact List.getLast?_concat _

/-! ### C9 — batch continuation and summary counts -/

/-- The first component of a loop step is the bucket the file lands in. -/
theorem processFile_fst (n i : Nat) (f : FileSpec) :
    (processFile n i f).1 = fileBucket f := by
  unfold processFile fileBucket
  cases f.outcomes 0 <;> rfl

/-- The `handleFiles` loop visits every file in input order and its
counters equal the bucket counts of the whole batch. -/
theorem handleFilesLoop_spec (n : Nat) (files : List FileSpec) : ∀ i : Nat,
    (handleFilesLoop n i files).1 =
      (files.countP (fun f => decide (fileBucket f = Bucket.success)),
       files.countP (fun f => decide (fileBucket f = Bucket.skipped)),
       files.countP (fun f => decide (fileBucket f = Bucket.failed))) ∧
    (handleFilesLoop n i files).2.1 = files.map FileSpec.name := by
  induction files with
  | nil => intro i; exact ⟨rfl, rfl⟩
  | cons f rest ih =>
    intro i
    obtain ⟨ihc, ihn⟩ := ih (i + 1)
    rcases hpf : processFile n i f with ⟨b, tr⟩
    have hb : b = fileBucket f := by rw [← processFile_fst n i f, hpf]
    rcases hl : handleFilesLoop n (i + 1) rest with ⟨counts, names, trs⟩
    rw [hl] at ihc ihn
    simp only at ihc ihn
    simp only [handleFilesLoop, hpf, hl]
    subst hb
    rw [ihc, ihn]
    refine ⟨?_, rfl⟩
    unfold bucketAdd
    cases hfb : fileBucket f <;>
      simp [List.countP_cons, hfb]

/-- C9: a batch is never aborted by a failing file — every file is
attempted, in input order — and a batch with more than one file ends with
exactly one summary whose uploaded, skipped, and failed counts equal the
number of files classified into each bucket. -/
theorem c9_batch_attempts_all_and_counts (files : List FileSpec)
    (h : 1 < files.length) :
    (handleFiles files).attempted = files.map FileSpec.name ∧
    (handleFiles files).summary = some
      (files.countP (fun f => decide (fileBucket f = Bucket.success)),
       files.countP (fun f => decide (fileBucket f = Bucket.skipped)),
       files.countP (fun f => decide (fileBucket f = Bucket.failed))) := by
  unfold handleFiles
  rcases hl : handleFilesLoop files.length 0 files with ⟨counts, names, trs⟩
  obtain ⟨hc, hn⟩ := handleFilesLoop_spec files.length files 0
  rw [hl] at hc hn
  simp only at hc hn
  simp [hl, h, hc, hn]

/-- Witness for C9: the three-file demo batch (success, duplicate,
success) attempts all files in order and its single summary counts
uploaded 2, skipped 1, failed 0. -/
theorem c9_batch_attempts_all_and_counts_witness :
    ((handleFiles demoBatch).attempted = demoBatch.map FileSpec.name ∧
      (handleFiles demoBatch).summary = some
        (demoBatch.countP (fun f => decide (fileBucket f = Bucket.success)),
         demoBatch.countP (fun f => decide (fileBucket f = Bucket.skipped)),
         demoBatch.countP (fun f => decide (fileBucket f = Bucket.failed)))) ∧
    (handleFiles demoBatch).summary = some (2, 1, 0) :=
  ⟨c9_batch_attempts_all_and_counts demoBatch (by decide), by decide⟩

/-! ### C3 — upload retry logic is dead code -/

/-- C3: `handleFiles` calls `uploadFile` directly (line 454) and never
invokes the `attemptUpload` retry helper defined a few lines above it, so
a file whose first attempt throws a transient `timeout` error and whose
second attempt would succeed is counted as a batch failure after a single
attempt — while `attemptUpload` itself, run on the same attempt oracle,
retries and returns the successful response.  The helper plus the
`MAX_RETRIES` constant and the catch-branch toast `Failed to upload ...
after multiple attempts` show the retry behaviour was the intent; the loop
simply does not use it. -/
theorem c3_handleFiles_never_retries :
    (handleFiles [demoRetryFile]).errorCount = 1 ∧
    (handleFiles [demoRetryFile]).successCount = 0 ∧
    attemptUpload demoRetryFile.outcomes 0 = .ok ⟨"success", "completed"⟩ := by
  refine ⟨by decide, by decide, ?_⟩
  show attemptUpload transientThenOk 0 = _
  unfold attemptUpload
  rw [show transientThenOk 0 = .err "timeout" from rfl]
  show (if h : 0 < 3 ∧ isTransient "timeout" = true
      then attemptUpload transientThenOk (0 + 1)
      else Except.error "timeout") = _
  rw [dif_pos (show 0 < 3 ∧ isTransient "timeout" = true by decide)]
  unfold attemptUpload
  rfl

end MindMirror
